import Mathlib

/-
Verification of the conductor plugin broker (src/server.ts) against its
natural-language specification.  The file shallowly embeds the broker's
data model and the four action handlers (`callAction`, `retrieveAction`,
`connectAction`, `responseAction`), the authentication gate
(`authenticate` / `generateToken`), the frame dispatcher
(`handleMessage`) and the remote-stub request path (`stubInvoke`),
and proves or refutes the specification's claims about them.
-/

namespace Conductor

/-- JS runtime values carried in action payloads, function tables and
responses.  `undefinedV` is JavaScript's `undefined`, `vnull` is `null`;
numbers are modelled as integers (floating point is out of scope for the
claims checked here). -/
inductive Value where
  | undefinedV : Value
  | vnull : Value
  | bool (b : Bool) : Value
  | num (n : Int) : Value
  | str (s : String) : Value
  | arr (xs : List Value) : Value
  deriving Repr

mutual

/-- Decidable equality on values (written out because deriving does not
handle the nested list). -/
def Value.decEq : (a b : Value) → Decidable (a = b)
  | .undefinedV, .undefinedV => isTrue rfl
  | .undefinedV, .vnull => isFalse (fun h => Value.noConfusion h)
  | .undefinedV, .bool _ => isFalse (fun h => Value.noConfusion h)
  | .undefinedV, .num _ => isFalse (fun h => Value.noConfusion h)
  | .undefinedV, .str _ => isFalse (fun h => Value.noConfusion h)
  | .undefinedV, .arr _ => isFalse (fun h => Value.noConfusion h)
  | .vnull, .undefinedV => isFalse (fun h => Value.noConfusion h)
  | .vnull, .vnull => isTrue rfl
  | .vnull, .bool _ => isFalse (fun h => Value.noConfusion h)
  | .vnull, .num _ => isFalse (fun h => Value.noConfusion h)
  | .vnull, .str _ => isFalse (fun h => Value.noConfusion h)
  | .vnull, .arr _ => isFalse (fun h => Value.noConfusion h)
  | .bool _, .undefinedV => isFalse (fun h => Value.noConfusion h)
  | .bool _, .vnull => isFalse (fun h => Value.noConfusion h)
  | .bool a, .bool b =>
    if h : a = b then isTrue (h ▸ rfl) else isFalse (fun hh => h (Value.bool.inj hh))
  | .bool _, .num _ => isFalse (fun h => Value.noConfusion h)
  | .bool _, .str _ => isFalse (fun h => Value.noConfusion h)
  | .bool _, .arr _ => isFalse (fun h => Value.noConfusion h)
  | .num _, .undefinedV => isFalse (fun h => Value.noConfusion h)
  | .num _, .vnull => isFalse (fun h => Value.noConfusion h)
  | .num _, .bool _ => isFalse (fun h => Value.noConfusion h)
  | .num a, .num b =>
    if h : a = b then isTrue (h ▸ rfl) else isFalse (fun hh => h (Value.num.inj hh))
  | .num _, .str _ => isFalse (fun h => Value.noConfusion h)
  | .num _, .arr _ => isFalse (fun h => Value.noConfusion h)
  | .str _, .undefinedV => isFalse (fun h => Value.noConfusion h)
  | .str _, .vnull => isFalse (fun h => Value.noConfusion h)
  | .str _, .bool _ => isFalse (fun h => Value.noConfusion h)
  | .str _, .num _ => isFalse (fun h => Value.noConfusion h)
  | .str a, .str b =>
    if h : a = b then isTrue (h ▸ rfl) else isFalse (fun hh => h (Value.str.inj hh))
  | .str _, .arr _ => isFalse (fun h => Value.noConfusion h)
  | .arr _, .undefinedV => isFalse (fun h => Value.noConfusion h)
  | .arr _, .vnull => isFalse (fun h => Value.noConfusion h)
  | .arr _, .bool _ => isFalse (fun h => Value.noConfusion h)
  | .arr _, .num _ => isFalse (fun h => Value.noConfusion h)
  | .arr _, .str _ => isFalse (fun h => Value.noConfusion h)
  | .arr xs, .arr ys =>
    match Value.decEqList xs ys with
    | isTrue h => isTrue (h ▸ rfl)
    | isFalse h => isFalse (fun hh => h (Value.arr.inj hh))

/-- Decidable equality on lists of values, mutual with `Value.decEq`. -/
def Value.decEqList : (xs ys : List Value) → Decidable (xs = ys)
  | [], [] => isTrue rfl
  | [], _ :: _ => isFalse (fun h => List.noConfusion h)
  | _ :: _, [] => isFalse (fun h => List.noConfusion h)
  | x :: xs, y :: ys =>
    match Value.decEq x y, Value.decEqList xs ys with
    | isTrue h1, isTrue h2 => isTrue (h1 ▸ h2 ▸ rfl)
    | isFalse h1, _ => isFalse (fun h => h1 (List.cons.inj h).1)
    | _, isFalse h2 => isFalse (fun h => h2 (List.cons.inj h).2)

end

instance : DecidableEq Value := Value.decEq

/-- JavaScript truthiness of a `Value`: `undefined`, `null`, `false`,
`0` and `""` are falsy; arrays are always truthy. -/
def Value.truthy : Value → Bool
  | .undefinedV => false
  | .vnull => false
  | .bool b => b
  | .num n => n != 0
  | .str s => s != ""
  | .arr _ => true

/-- JavaScript `x || y`: returns `x` when `x` is truthy, else `y`.
Embeds the `result || null` coercion on line 220 of src/server.ts. -/
def jsOr (x y : Value) : Value := if x.truthy then x else y

/-- One entry of a plugin's exported module namespace (`mod` in
`connectAction`): either an invocable function (receiving a JS argument
list and returning a value or throwing, both sync and async collapsed
into `Except`) or a plain constant value. -/
inductive Entry where
  | func (f : List Value → Except String Value) : Entry
  | const (v : Value) : Entry

/-- Truthiness of a table entry as JavaScript sees it: functions are
always truthy, constants follow `Value.truthy`.  This is the `!func` /
`!constant` test on lines 211 and 244 of src/server.ts. -/
def Entry.truthy : Entry → Bool
  | .func _ => true
  | .const v => v.truthy

/-- Invoking a table entry as the source does with
`func.call(globalThis, action.arguments)` (line 219): a function entry
receives the JS argument list; invoking a non-function raises a
TypeError, which the surrounding `try` turns into an error response. -/
def Entry.callJs : Entry → List Value → Except String Value
  | .func f, args => f args
  | .const _, _ => .error "TypeError: func.call is not a function"

/-- A signed credential.  The external djwt library (an out-of-scope
collaborator, spec section 4.1) is abstracted at its interface: `create`
yields a token carrying the signing key's identity and the payload;
`verify` succeeds exactly on tokens signed with the same key.  Any other
byte string is `garbage`. -/
inductive Token where
  | signed (key : Nat) (name : String) (version : String) : Token
  | garbage (s : String) : Token
  deriving Repr, DecidableEq

/-- Interface model of djwt's `verify(token, key)` (line 160 of
src/server.ts): returns the payload for a token signed under `key`,
throws (modelled as `.error`) on a garbage token or a signature under a
different key. -/
def jwtVerify (t : Token) (key : Nat) : Except String (String × String) :=
  match t with
  | .signed k n v => if k = key then .ok (n, v) else .error "invalid signature"
  | .garbage _ => .error "malformed token"

/-- Result of `authenticate` (interface `TokenPayload`, lines 24-28 of
src/server.ts). -/
structure TokenPayload where
  name : String
  version : String
  error : Bool
  deriving Repr, DecidableEq

/-- `generateToken` (lines 316-320): signs `{name, version}` under the
server's key via djwt `create`. -/
def generateToken (key : Nat) (name version : String) : Token :=
  .signed key name version

/-- `authenticate` (lines 158-169): verifies the token and returns the
payload with `error:false`; any verification failure is caught and
returned as the tagged failure `{name:"", version:"", error:true}`.
Total by construction, mirroring the `try`/`catch`. -/
def authenticate (key : Nat) (token : Token) : TokenPayload :=
  match jwtVerify token key with
  | .ok (n, v) => { name := n, version := v, error := false }
  | .error _ => { name := "", version := "", error := true }

/-- Payload position of an outbound response: either a JS value or the
issued credential (connect responses carry the token as `message`). -/
inductive Msg where
  | val (v : Value) : Msg
  | tok (t : Token) : Msg
  deriving Repr, DecidableEq

/-- An outbound reply unit (`ServerResponse`, lines 67-99 of
src/server.ts): echoes the triggering action's id and type. -/
structure ServerResponse where
  type : String
  id : String
  error : Option String
  message : Msg
  deriving Repr, DecidableEq

/-- `createHealthyResponse` (lines 322-332): error is null. -/
def createHealthyResponse (ty id : String) (message : Msg) : ServerResponse :=
  { type := ty, id := id, error := none, message := message }

/-- `createErrorResponse` (lines 334-341): both `error` and `message`
carry the error string. -/
def createErrorResponse (ty id : String) (error : String) : ServerResponse :=
  { type := ty, id := id, error := some error, message := .val (.str error) }

/-- A registered plugin (value type of `Server.plugins`, lines 104-113):
the owning connection (a handle) and the exported function table. -/
structure PluginRecord where
  client : Nat
  functions : List (String × Entry)

/-- JS `Map.get` / object property lookup on a string-keyed association
list. -/
def mapGet {α : Type} : List (String × α) → String → Option α
  | [], _ => none
  | (k, v) :: rest, k' => if k' = k then some v else mapGet rest k'

/-- JS `Map.set`: replaces the value at an existing key in place,
otherwise appends the binding; keys stay unique. -/
def mapSet {α : Type} : List (String × α) → String → α → List (String × α)
  | [], k, v => [(k, v)]
  | (k₀, v₀) :: rest, k, v =>
    if k₀ = k then (k, v) :: rest else (k₀, v₀) :: mapSet rest k v

/-- Object property access `plugin.functions[action.name]` followed by
the JS convention that an absent property reads as `undefined`. -/
def tableGet (tbl : List (String × Entry)) (k : String) : Entry :=
  (mapGet tbl k).getD (.const .undefinedV)

/-- The broker's mutable state (fields of `class Server`, lines
101-114): the HMAC signing key (abstracted to its identity), the plugin
registry `plugins`, and the call-correlator map `resolvers` from
correlation id to the pending promise's resolve continuation
(continuations abstracted to handles, so invocations are observable). -/
structure State where
  key : Nat
  plugins : List (String × PluginRecord)
  resolvers : List (String × Nat)

/-- One inbound action (`ServerAction`, lines 35-65).  `unknown` stands
for a frame whose `type` matches none of the four kinds (the `default`
branch of `handleMessage`).  `response.error` is `string | null` on the
wire, hence `Option String`. -/
inductive ServerAction where
  | call (id name : String) (args : List Value) : ServerAction
  | retrieve (id name : String) : ServerAction
  | connect (id name : String) : ServerAction
  | response (id : String) (error : Option String) (message : Value) : ServerAction
  | unknown (id ty : String) : ServerAction

/-- An inbound envelope (`ServerMessage`, lines 30-33). -/
structure ServerMessage where
  token : Token
  action : ServerAction

/-- A raw text frame as delivered by the transport: it either parses
(`JSON.parse`, line 128) into an envelope, or `JSON.parse` throws with
the given message. -/
inductive RawData where
  | wellFormed (m : ServerMessage) : RawData
  | malformed (err : String) : RawData

/-- Observable effects of handling traffic: an outbound reply frame, an
outbound stub-initiated request frame
(`{type:"response", name, id, arguments}`, lines 287-290), the
registration of a pending correlation, and the invocation of a pending
continuation (resolving the corresponding deferred value). -/
inductive Event where
  | sentResponse (client : Nat) (resp : ServerResponse) : Event
  | sentRequest (client : Nat) (name : String) (id : String) (args : List Value) : Event
  | registered (id : String) (resolverId : Nat) : Event
  | resolverInvoked (resolverId : Nat) (message : Value) : Event

/-- JS truthiness of the `string | null` field `action.error`
(`if (action.error)`, line 186): null and the empty string are falsy. -/
def truthyErr : Option String → Bool
  | none => false
  | some s => s != ""

/-- `responseAction` (lines 171-194): drops the action silently when the
credential is invalid or no resolver is pending under `action.id`; when
`action.error` is truthy only logs; otherwise invokes the pending
continuation with `action.message`.  The source never mutates
`resolvers` here (no delete), so the state component is returned
unchanged. -/
def responseAction (st : State) (token : Token) (id : String)
    (error : Option String) (message : Value) : State × List Event :=
  let p := authenticate st.key token
  if p.error then (st, [])
  else
    match mapGet st.resolvers id with
    | none => (st, [])
    | some r =>
      if truthyErr error then (st, [])
      else (st, [.resolverInvoked r message])

/-- `callAction` (lines 196-224): authenticate, resolve the plugin from
the credential's name, look up `action.name` in its table (`!func` is a
truthiness test), invoke it with the single argument
`action.arguments`, coerce a falsy result to null (`result || null`),
and catch any thrown error into an error response. -/
def callAction (st : State) (token : Token) (id name : String)
    (args : List Value) : ServerResponse :=
  let p := authenticate st.key token
  if p.error then createErrorResponse "call" id "unauthenticated"
  else
    match mapGet st.plugins p.name with
    | none => createErrorResponse "call" id ("package \x27" ++ p.name ++ "\x27 not found")
    | some plugin =>
      let func := tableGet plugin.functions name
      if !func.truthy then
        createErrorResponse "call" id
          ("function \x27" ++ name ++ "\x27 not found in plugin \x27" ++ p.name ++ "\x27")
      else
        match func.callJs [Value.arr args] with
        | .ok result => createHealthyResponse "call" id (.val (jsOr result .vnull))
        | .error e => createErrorResponse "call" id e

/-- `retrieveAction` (lines 226-256): same gate and lookups as
`callAction` but no invocation; a falsy entry (`!constant`) yields the
constant-not-found error, otherwise the entry itself is the healthy
message (a function entry disappears under JSON serialization, read as
`undefined`). -/
def Entry.asMsg : Entry → Msg
  | .const v => .val v
  | .func _ => .val .undefinedV

/-- `retrieveAction` proper (lines 226-256). -/
def retrieveAction (st : State) (token : Token) (id name : String) : ServerResponse :=
  let p := authenticate st.key token
  if p.error then createErrorResponse "retrieve" id "unauthenticated"
  else
    match mapGet st.plugins p.name with
    | none => createErrorResponse "retrieve" id ("package \x27" ++ p.name ++ "\x27 not found")
    | some plugin =>
      let constant := tableGet plugin.functions name
      if !constant.truthy then
        createErrorResponse "retrieve" id
          ("constant \x27" ++ name ++ "\x27 not found in plugin \x27" ++ p.name ++ "\x27")
      else
        createHealthyResponse "retrieve" id constant.asMsg

/-- What the external loader (manifest read + dynamic import, lines
263-299) produces for a connect: the manifest's `kasif.identifier` and
the imported module's export table.  Loader failures (missing or
malformed manifest, failing import) surface as `.error` with the
stringified error, caught by `connectAction`'s `try`. -/
structure LoadResult where
  identifier : String
  functions : List (String × Entry)

/-- `connectAction` (lines 258-310): loads the plugin named by
`action.name`; on failure replies with the stringified error.  On
success registers the plugin under the manifest's identifier (not the
action's name), issues a credential for `(identifier, "0.0.1")` and
replies healthily with the credential as message.  The remote-stub proxy
installed on `globalThis` is modelled separately by `stubInvoke`. -/
def connectAction (st : State) (loader : String → Except String LoadResult)
    (id name : String) (client : Nat) : State × ServerResponse :=
  match loader name with
  | .error e => (st, createErrorResponse "connect" id e)
  | .ok lr =>
    ({ st with plugins := mapSet st.plugins lr.identifier ⟨client, lr.functions⟩ },
     createHealthyResponse "connect" id (.tok (generateToken st.key lr.identifier "0.0.1")))

/-- One remote-stub member invocation (the proxy `get` trap, lines
280-293): inside the new promise's executor a fresh correlation id is
drawn, the promise's resolve continuation is registered in `resolvers`,
and only then is the response-needed request sent to the plugin's own
connection.  `resolverId` is the handle of the returned deferred
value's continuation. -/
def stubInvoke (st : State) (client : Nat) (freshId : String) (resolverId : Nat)
    (member : String) (args : List Value) : State × List Event :=
  ({ st with resolvers := mapSet st.resolvers freshId resolverId },
   [.registered freshId resolverId, .sentRequest client member freshId args])

/-- `handleMessage` (lines 127-156): `JSON.parse` is not guarded, so a
malformed frame makes the handler itself throw (`Except.error` escapes
to the transport callback); a parsed frame is dispatched on
`action.type`, an unknown type is answered with a generic error
response. -/
def handleMessage (st : State) (loader : String → Except String LoadResult)
    (data : RawData) (client : Nat) : Except String (State × List Event) :=
  match data with
  | .malformed e => .error e
  | .wellFormed msg =>
    match msg.action with
    | .call id name args =>
      .ok (st, [.sentResponse client (callAction st msg.token id name args)])
    | .retrieve id name =>
      .ok (st, [.sentResponse client (retrieveAction st msg.token id name)])
    | .connect id name =>
      let p := connectAction st loader id name client
      .ok (p.1, [.sentResponse client p.2])
    | .response id err m =>
      let p := responseAction st msg.token id err m
      .ok (p.1, p.2)
    | .unknown id ty =>
      .ok (st, [.sentResponse client (createErrorResponse ty id "unknown action")])

/-- Sequential processing of inbound frames in arrival order, threading
the broker state and accumulating observable events; an escaping
exception aborts the run. -/
def processFrames (st : State) (loader : String → Except String LoadResult) :
    List (RawData × Nat) → Except String (State × List Event)
  | [] => .ok (st, [])
  | (d, c) :: rest =>
    match handleMessage st loader d c with
    | .error e => .error e
    | .ok (st', evts) =>
      match processFrames st' loader rest with
      | .error e => .error e
      | .ok (st'', evts') => .ok (st'', evts ++ evts')

/-- Number of times the continuation with handle `r` is invoked in an
event trace. -/
def countInvocations (r : Nat) : List Event → Nat
  | [] => 0
  | .resolverInvoked r' _ :: rest =>
    (if r' = r then 1 else 0) + countInvocations r rest
  | _ :: rest => countInvocations r rest

/-- Whether handling completed without an exception escaping. -/
def exceptIsOk {α : Type} : Except String α → Bool
  | .ok _ => true
  | .error _ => false

/-- Broker state with no plugins and no pending correlations, signing
key 0. -/
def stEmpty : State := ⟨0, [], []⟩

/-- Loader that always fails (no plugin directory). -/
def noLoader : String → Except String LoadResult := fun _ => .error "no loader"

/-- A token issued by the broker with key 0 for plugin "math". -/
def tokMath : Token := Token.signed 0 "math" "0.0.1"

/-- Broker state with one pending correlation "i" whose continuation
handle is 7. -/
def stPending : State := ⟨0, [], [("i", 7)]⟩

/-- Inbound response frame: valid credential, correlation id "i", error
null, message "m". -/
def respFrame : RawData :=
  .wellFormed ⟨tokMath, .response "i" none (.str "m")⟩

/-- Broker state with one pending correlation "j" with handle 9. -/
def stPending6 : State := ⟨0, [], [("j", 9)]⟩

/-- Plugin function modelling `add` as loaded plugin code sees it: it
receives the JS argument list, whose single element is the arguments
array, and sums that array's two numbers. -/
def addFn : List Value → Except String Value
  | [Value.arr [Value.num a, Value.num b]] => .ok (.num (a + b))
  | _ => .error "TypeError: bad arguments"

/-- Plugin function that returns the (falsy) number 0. -/
def zeroFn : List Value → Except String Value := fun _ => .ok (.num 0)

/-- Plugin function that reports how many JS arguments it received. -/
def countFn : List Value → Except String Value :=
  fun xs => .ok (.num (xs.length : Int))

/-- Plugin function that always throws. -/
def boomFn : List Value → Except String Value := fun _ => .error "Error: boom"

/-- Registered "math" plugin exposing `add` and `zero`. -/
def stMath : State :=
  ⟨0, [("math", ⟨0, [("add", Entry.func addFn), ("zero", Entry.func zeroFn)]⟩)], []⟩

/-- Registered "math" plugin exposing only the throwing `boom`. -/
def stBoom : State := ⟨0, [("math", ⟨0, [("boom", Entry.func boomFn)]⟩)], []⟩

/-- Registered "math" plugin exposing `count`. -/
def stCount : State := ⟨0, [("math", ⟨0, [("count", Entry.func countFn)]⟩)], []⟩

/-- Registered "math" plugin whose table maps "zeroC" to the falsy
constant 0. -/
def stConst : State := ⟨0, [("math", ⟨0, [("zeroC", Entry.const (.num 0))]⟩)], []⟩

/-- Loader whose manifest declares the identifier "other" regardless of
the requested directory name. -/
def otherLoader : String → Except String LoadResult :=
  fun _ => .ok ⟨"other", []⟩

/-- Lookup after `mapSet`: the written key reads back the new value,
all other keys are untouched. -/
theorem mapGet_mapSet {α : Type} (m : List (String × α)) (k k' : String) (v : α) :
    mapGet (mapSet m k v) k' = if k' = k then some v else mapGet m k' := by
  induction m with
  | nil => simp [mapSet, mapGet]
  | cons hd tl ih =>
    obtain ⟨k₀, v₀⟩ := hd
    by_cases h : k₀ = k
    · subst h
      simp only [mapSet, if_pos rfl, mapGet]
      by_cases h2 : k' = k₀ <;> simp [h2]
    · simp only [mapSet, if_neg h, mapGet]
      by_cases h2 : k' = k₀
      · subst h2
        have hk : ¬ k' = k := h
        simp [hk]
      · simp [h2, ih]

/-- Setting the same key twice is observationally the same as setting it
once with the later value. -/
theorem mapGet_mapSet_mapSet {α : Type} (m : List (String × α)) (k : String)
    (v1 v2 : α) (a : String) :
    mapGet (mapSet (mapSet m k v1) k v2) a = mapGet (mapSet m k v2) a := by
  rw [mapGet_mapSet, mapGet_mapSet, mapGet_mapSet]
  by_cases h : a = k <;> simp [h]

/-- Keys after `mapSet`: replacing an existing key leaves the key list
unchanged, inserting a new one appends it. -/
theorem keys_mapSet {α : Type} (m : List (String × α)) (k : String) (v : α) :
    (mapSet m k v).map Prod.fst
      = if k ∈ m.map Prod.fst then m.map Prod.fst else m.map Prod.fst ++ [k] := by
  induction m with
  | nil => simp [mapSet]
  | cons hd tl ih =>
    obtain ⟨k₀, v₀⟩ := hd
    by_cases h : k₀ = k
    · subst h
      simp [mapSet]
    · have h' : ¬ k = k₀ := fun hh => h hh.symm
      simp only [mapSet, if_neg h, List.map_cons, ih, List.mem_cons, h', false_or]
      by_cases h2 : k ∈ tl.map Prod.fst <;> simp [h2]

/-- `mapSet` keeps the registry's keys unique. -/
theorem nodup_keys_mapSet {α : Type} (m : List (String × α)) (k : String) (v : α)
    (h : (m.map Prod.fst).Nodup) : ((mapSet m k v).map Prod.fst).Nodup := by
  rw [keys_mapSet]
  by_cases h2 : k ∈ m.map Prod.fst
  · simpa [h2] using h
  · rw [if_neg h2]
    refine List.Nodup.append h (List.nodup_singleton k) ?_
    intro a ha hak
    simp only [List.mem_singleton] at hak
    subst hak
    exact h2 ha

/-- `callAction` only observes the plugin registry through lookups, so
registries with the same lookup behaviour give the same replies. -/
theorem callAction_congr_plugins (st : State)
    (pl1 pl2 : List (String × PluginRecord)) (tok : Token) (id name : String)
    (args : List Value) (h : ∀ a, mapGet pl1 a = mapGet pl2 a) :
    callAction { st with plugins := pl1 } tok id name args
      = callAction { st with plugins := pl2 } tok id name args := by
  simp only [callAction, h]

/-- C5: for every (name, version), verifying the token produced by
`generateToken` under the same key returns {name, version, error:false};
and verifying any tampered or garbage token (any token not signed under
the server's key) returns the tagged failure {name:"", version:"",
error:true}.  `authenticate` is total by construction (the `catch`
branch), so verification never raises past the caller. -/
theorem c5_issue_verify_roundtrip (key : Nat) (n v : String) (t : Token)
    (h : ∀ n' v', t ≠ Token.signed key n' v') :
    authenticate key (generateToken key n v) = ⟨n, v, false⟩ ∧
    authenticate key t = ⟨"", "", true⟩ := by
  constructor
  · simp [authenticate, generateToken, jwtVerify]
  · cases t with
    | garbage s => simp [authenticate, jwtVerify]
    | signed k n' v' =>
      have hk : ¬ k = key := fun hh => h n' v' (by rw [hh])
      simp [authenticate, jwtVerify, hk]

/-- Witness for C5 at key 0, name "math", version "0.0.1" and the
garbage token "junk". -/
theorem c5_witness :
    authenticate 0 (generateToken 0 "math" "0.0.1") = ⟨"math", "0.0.1", false⟩ ∧
    authenticate 0 (Token.garbage "junk") = ⟨"", "", true⟩ :=
  c5_issue_verify_roundtrip 0 "math" "0.0.1" (Token.garbage "junk")
    (fun n' v' h => Token.noConfusion h)

/-- C1 counterexample: with a pending continuation (handle 7) under
correlation id "i", processing the same valid matching response frame
twice invokes the continuation twice, and the pending entry is still in
the correlator afterwards — the source never deletes from `resolvers`
(lines 171-194 contain no `delete`), so the second response is not a
no-op and the entry is not consumed on the first match. -/
theorem c1_counterexample :
    processFrames stPending noLoader [(respFrame, 0), (respFrame, 0)]
      = .ok (stPending,
          [.resolverInvoked 7 (.str "m"), .resolverInvoked 7 (.str "m")]) ∧
    mapGet stPending.resolvers "i" = some 7 ∧
    ¬ countInvocations 7
        [Event.resolverInvoked 7 (.str "m"), Event.resolverInvoked 7 (.str "m")] ≤ 1 :=
  ⟨rfl, rfl, by decide⟩

/-- C1 amended: the correlator never consumes a pending entry — handling
a response action leaves the state (so `resolvers`) unchanged, and a
second response action with the same id invokes the stored continuation
a second time with its message.  At-most-once settlement of the
deferred value is delivered only by the runtime's idempotent promise
resolution, outside this code, not by destroying the entry. -/
theorem c1_amended (st : State) (tok : Token) (i : String) (r : Nat) (m : Value)
    (loader : String → Except String LoadResult) (c : Nat)
    (hauth : (authenticate st.key tok).error = false)
    (hres : mapGet st.resolvers i = some r) :
    (responseAction st tok i none m).1 = st ∧
    processFrames st loader
        [(RawData.wellFormed ⟨tok, .response i none m⟩, c),
         (RawData.wellFormed ⟨tok, .response i none m⟩, c)]
      = .ok (st, [.resolverInvoked r m, .resolverInvoked r m]) := by
  have hra : responseAction st tok i none m = (st, [.resolverInvoked r m]) := by
    simp [responseAction, hauth, hres, truthyErr]
  constructor
  · rw [hra]
  · simp [processFrames, handleMessage, hra]

/-- Witness for C1 amended at the concrete pending state. -/
theorem c1_witness :
    (responseAction stPending tokMath "i" none (.str "m")).1 = stPending ∧
    processFrames stPending noLoader
        [(RawData.wellFormed ⟨tokMath, .response "i" none (.str "m")⟩, 0),
         (RawData.wellFormed ⟨tokMath, .response "i" none (.str "m")⟩, 0)]
      = .ok (stPending,
          [.resolverInvoked 7 (.str "m"), .resolverInvoked 7 (.str "m")]) :=
  c1_amended stPending tokMath "i" 7 (.str "m") noLoader 0 rfl rfl

/-- C6 counterexample: with a valid credential, a pending continuation
(handle 9) under id "j", and the response's error field set to the
empty string — set on the wire, since the field is `string | null` and
"" is not null — the continuation IS invoked with the message: line 186
tests JS truthiness of `action.error`, not whether it is null. -/
theorem c6_counterexample :
    responseAction stPending6 tokMath "j" (some "") (.str "m")
      = (stPending6, [.resolverInvoked 9 (.str "m")]) ∧
    (some "" : Option String) ≠ none ∧
    ([Event.resolverInvoked 9 (.str "m")] : List Event) ≠ [] :=
  ⟨rfl, by simp, by simp⟩

/-- C6 amended: an inbound response action with an invalid credential,
or with no pending continuation under its id, is silently dropped with
no outbound frame and no invocation; when a continuation is pending,
the continuation is not invoked when the error field is truthy (a
non-empty string), and is resolved with the action's message exactly
when the credential is valid, the id is pending, and the error field is
null or the empty string. -/
theorem c6_amended (st : State) (tok : Token) (i : String) (err : Option String)
    (m : Value) :
    ((authenticate st.key tok).error = true →
      responseAction st tok i err m = (st, [])) ∧
    (mapGet st.resolvers i = none →
      responseAction st tok i err m = (st, [])) ∧
    (∀ r, (authenticate st.key tok).error = false → mapGet st.resolvers i = some r →
      (truthyErr err = true → responseAction st tok i err m = (st, [])) ∧
      (truthyErr err = false →
        responseAction st tok i err m = (st, [.resolverInvoked r m]))) := by
  refine ⟨?_, ?_, ?_⟩
  · intro h
    simp [responseAction, h]
  · intro h
    by_cases hp : (authenticate st.key tok).error = true
    · simp [responseAction, hp]
    · simp [responseAction, hp, h]
  · intro r h1 h2
    constructor
    · intro h3
      simp [responseAction, h1, h2, h3]
    · intro h3
      simp [responseAction, h1, h2, h3]

/-- Witness for C6 amended: all four branches at concrete inputs — bad
token, unknown id, truthy error, and the resolving case. -/
theorem c6_witness :
    responseAction stPending6 (Token.garbage "bad") "j" none (.str "m")
      = (stPending6, []) ∧
    responseAction stPending6 tokMath "nope" none (.str "m") = (stPending6, []) ∧
    responseAction stPending6 tokMath "j" (some "boom") (.str "m")
      = (stPending6, []) ∧
    responseAction stPending6 tokMath "j" none (.str "m")
      = (stPending6, [.resolverInvoked 9 (.str "m")]) := by
  refine ⟨?_, ?_, ?_, ?_⟩
  · exact (c6_amended stPending6 (Token.garbage "bad") "j" none (.str "m")).1 rfl
  · exact (c6_amended stPending6 tokMath "nope" none (.str "m")).2.1 rfl
  · exact ((c6_amended stPending6 tokMath "j" (some "boom") (.str "m")).2.2 9 rfl rfl).1 rfl
  · exact ((c6_amended stPending6 tokMath "j" none (.str "m")).2.2 9 rfl rfl).2 rfl

/-- C2 counterexample: with a valid credential for the registered plugin
"math" and the existing function "zero" (which returns 0), the reply's
message is null rather than the function's return value 0 — line 220
coerces every falsy result to null via `result || null`. -/
theorem c2_counterexample :
    callAction stMath tokMath "1" "zero" []
      = { type := "call", id := "1", error := none, message := .val .vnull } ∧
    Msg.val Value.vnull ≠ Msg.val (Value.num 0) :=
  ⟨rfl, by decide⟩

/-- C2 amended: for every call action carrying a valid credential for a
registered plugin and naming an existing function in its table, the
dispatcher invokes that function and replies with error null and a
message equal to the function's return value when that value is truthy,
and null when it is falsy (`result || null`); the math scenario
(`add` with arguments [2,3], issued token) yields message 5. -/
theorem c2_amended (st : State) (tok : Token) (id fname : String)
    (args : List Value) (n vv : String) (rec : PluginRecord)
    (f : List Value → Except String Value) (r : Value)
    (hauth : authenticate st.key tok = ⟨n, vv, false⟩)
    (hplug : mapGet st.plugins n = some rec)
    (hfn : tableGet rec.functions fname = Entry.func f)
    (hres : f [Value.arr args] = .ok r) :
    callAction st tok id fname args
      = { type := "call", id := id, error := none,
          message := .val (jsOr r Value.vnull) } := by
  simp [callAction, hauth, hplug, hfn, hres, Entry.callJs, Entry.truthy,
    createHealthyResponse]

/-- Witness for C2 amended: the end-to-end math scenario — valid token
for "math", call id "1" of "add" with arguments [2,3] — yields
{id:"1", type:"call", error:null, message:5}. -/
theorem c2_witness :
    callAction stMath tokMath "1" "add" [Value.num 2, Value.num 3]
      = { type := "call", id := "1", error := none, message := .val (.num 5) } := by
  have h := c2_amended stMath tokMath "1" "add" [Value.num 2, Value.num 3]
    "math" "0.0.1" ⟨0, [("add", Entry.func addFn), ("zero", Entry.func zeroFn)]⟩
    addFn (.num 5) rfl rfl rfl rfl
  simpa [jsOr, Value.truthy] using h

/-- C3 counterexample: a frame whose JSON fails to parse makes
`handleMessage` itself throw — line 128's `JSON.parse` is not inside any
try/catch, so the exception escapes the handler boundary instead of
being caught, converted to a response, or dropped. -/
theorem c3_counterexample :
    handleMessage stEmpty noLoader
        (.malformed "SyntaxError: Unexpected end of JSON input") 0
      = .error "SyntaxError: Unexpected end of JSON input" ∧
    exceptIsOk (handleMessage stEmpty noLoader
        (.malformed "SyntaxError: Unexpected end of JSON input") 0) = false :=
  ⟨rfl, rfl⟩

/-- C3 amended: for every frame that parses, no exception escapes
`handleMessage` — every error in the four handlers (authentication
failure, missing plugin or table entry, a throwing plugin function,
loader failure, unknown action type) is caught and converted to a
response value, and in particular a call to a throwing plugin function
is answered with an error response carrying the thrown error; only a
JSON parse failure of the frame itself propagates out of the handler to
the transport layer. -/
theorem c3_amended (st : State) (loader : String → Except String LoadResult)
    (msg : ServerMessage) (c : Nat) (n vv : String) (tok : Token)
    (id fname : String) (args : List Value) (rec : PluginRecord)
    (f : List Value → Except String Value) (e : String)
    (hauth : authenticate st.key tok = ⟨n, vv, false⟩)
    (hplug : mapGet st.plugins n = some rec)
    (hfn : tableGet rec.functions fname = Entry.func f)
    (hthrow : f [Value.arr args] = .error e) :
    exceptIsOk (handleMessage st loader (.wellFormed msg) c) = true ∧
    handleMessage st loader (.wellFormed ⟨tok, .call id fname args⟩) c
      = .ok (st, [.sentResponse c (createErrorResponse "call" id e)]) := by
  constructor
  · obtain ⟨token, action⟩ := msg
    cases action <;> simp [handleMessage, exceptIsOk]
  · simp [handleMessage, callAction, hauth, hplug, hfn, hthrow, Entry.callJs,
      Entry.truthy]

/-- Witness for C3 amended: the "math" plugin exposing the throwing
`boom`; an unknown-type frame is handled without an escaping exception,
and calling `boom` yields the error response "Error: boom". -/
theorem c3_witness :
    exceptIsOk (handleMessage stBoom noLoader
        (.wellFormed ⟨tokMath, .unknown "1" "weird"⟩) 0) = true ∧
    handleMessage stBoom noLoader (.wellFormed ⟨tokMath, .call "1" "boom" []⟩) 0
      = .ok (stBoom, [.sentResponse 0 (createErrorResponse "call" "1" "Error: boom")]) :=
  c3_amended stBoom noLoader ⟨tokMath, .unknown "1" "weird"⟩ 0 "math" "0.0.1"
    tokMath "1" "boom" [] ⟨0, [("boom", Entry.func boomFn)]⟩ boomFn "Error: boom"
    rfl rfl rfl rfl

/-- C7 counterexample: a successful connect action named "math" whose
loaded manifest declares the identifier "other" registers the plugin
under "other" and issues a credential binding ("other", "0.0.1"), not
(action.name, "0.0.1") — lines 299 and 301-304 use
`manifest.kasif.identifier`, which nothing forces to equal
`action.name`; the registry afterwards has no entry under "math". -/
theorem c7_counterexample :
    connectAction stEmpty otherLoader "1" "math" 5
      = ({ key := 0, plugins := [("other", ⟨5, []⟩)], resolvers := [] },
         { type := "connect", id := "1", error := none,
           message := .tok (Token.signed 0 "other" "0.0.1") }) ∧
    ("other" : String) ≠ "math" ∧
    mapGet (connectAction stEmpty otherLoader "1" "math" 5).1.plugins "math" = none :=
  ⟨rfl, by decide, rfl⟩

/-- C7 amended: for every successful connect action, the dispatcher
registers the plugin in the registry under the loaded manifest's
identifier, issues a credential binding (identifier, "0.0.1"), and
replies with a healthy response (error null) whose message is that
credential; the identifier coincides with action.name only when the
manifest declares it so. -/
theorem c7_amended (st : State) (loader : String → Except String LoadResult)
    (id name : String) (client : Nat) (lr : LoadResult)
    (hload : loader name = .ok lr) :
    connectAction st loader id name client
      = ({ st with plugins := mapSet st.plugins lr.identifier ⟨client, lr.functions⟩ },
         { type := "connect", id := id, error := none,
           message := .tok (Token.signed st.key lr.identifier "0.0.1") }) := by
  simp [connectAction, hload, generateToken, createHealthyResponse]

/-- Witness for C7 amended at the "other"-identifier loader. -/
theorem c7_witness :
    connectAction stEmpty otherLoader "1" "math" 5
      = ({ stEmpty with
            plugins := mapSet stEmpty.plugins "other" ⟨5, []⟩ },
         { type := "connect", id := "1", error := none,
           message := .tok (Token.signed stEmpty.key "other" "0.0.1") }) :=
  c7_amended stEmpty otherLoader "1" "math" 5 ⟨"other", []⟩ rfl

/-- C4: a remote-stub member invocation first registers the fresh
correlation id with the correlator (the `registered` event precedes the
send in the trace, as `resolvers.set` precedes `this.send` on lines
286-290) and then sends the outbound message
{type:"response", name:member, id, arguments} to the plugin's own
connection, returning a deferred value; when the connection later sends
a response action with the matching id, a valid credential and error
null, the deferred value's continuation is invoked with that action's
message. -/
theorem c4_stub_roundtrip (st : State) (client : Nat) (i : String) (r : Nat)
    (member : String) (args : List Value) (tok : Token) (m : Value)
    (hfresh : mapGet st.resolvers i = none)
    (hauth : (authenticate st.key tok).error = false) :
    stubInvoke st client i r member args
      = ({ st with resolvers := mapSet st.resolvers i r },
         [.registered i r, .sentRequest client member i args]) ∧
    responseAction { st with resolvers := mapSet st.resolvers i r } tok i none m
      = ({ st with resolvers := mapSet st.resolvers i r },
         [.resolverInvoked r m]) := by
  constructor
  · rfl
  · simp [responseAction, hauth, mapGet_mapSet, truthyErr]

/-- Witness for C4 at the spec's scenario: "math"'s stub invokes
`callback()`, the connection later answers with error null and message
"done", and the deferred continuation receives "done". -/
theorem c4_witness :
    stubInvoke stEmpty 0 "u1" 7 "callback" []
      = ({ stEmpty with resolvers := mapSet stEmpty.resolvers "u1" 7 },
         [.registered "u1" 7, .sentRequest 0 "callback" "u1" []]) ∧
    responseAction { stEmpty with resolvers := mapSet stEmpty.resolvers "u1" 7 }
        tokMath "u1" none (.str "done")
      = ({ stEmpty with resolvers := mapSet stEmpty.resolvers "u1" 7 },
         [.resolverInvoked 7 (.str "done")]) :=
  c4_stub_roundtrip stEmpty 0 "u1" 7 "callback" [] tokMath (.str "done") rfl rfl

/-- C8: plugin names are unique keys in the registry (`mapSet` preserves
key uniqueness), registering a name that is already present replaces the
prior record (looking up the name after two registrations yields the
second record), and every call dispatched after the second registration
behaves exactly as if only the latest registration existed — the first
record's function table is unreachable. -/
theorem c8_last_connect_wins (st : State) (P : String) (r1 r2 : PluginRecord)
    (tok : Token) (id fname : String) (args : List Value)
    (hnodup : (st.plugins.map Prod.fst).Nodup) :
    mapGet (mapSet (mapSet st.plugins P r1) P r2) P = some r2 ∧
    ((mapSet (mapSet st.plugins P r1) P r2).map Prod.fst).Nodup ∧
    callAction { st with plugins := mapSet (mapSet st.plugins P r1) P r2 }
        tok id fname args
      = callAction { st with plugins := mapSet st.plugins P r2 } tok id fname args := by
  refine ⟨?_, ?_, ?_⟩
  · rw [mapGet_mapSet]
    simp
  · exact nodup_keys_mapSet _ P r2 (nodup_keys_mapSet _ P r1 hnodup)
  · exact callAction_congr_plugins st _ _ tok id fname args
      (fun a => mapGet_mapSet_mapSet st.plugins P r1 r2 a)

/-- Witness for C8: registering "math" twice from the empty registry
with two distinct records; lookup yields the second record, keys stay
unique, and a call behaves as under the second registration alone. -/
theorem c8_witness :
    mapGet (mapSet (mapSet stEmpty.plugins "math"
        ⟨1, [("f", Entry.const (.num 1))]⟩) "math"
        ⟨2, [("f", Entry.const (.num 2))]⟩) "math"
      = some ⟨2, [("f", Entry.const (.num 2))]⟩ ∧
    ((mapSet (mapSet stEmpty.plugins "math"
        ⟨1, [("f", Entry.const (.num 1))]⟩) "math"
        ⟨2, [("f", Entry.const (.num 2))]⟩).map Prod.fst).Nodup ∧
    callAction { stEmpty with
        plugins := mapSet (mapSet stEmpty.plugins "math"
          ⟨1, [("f", Entry.const (.num 1))]⟩) "math"
          ⟨2, [("f", Entry.const (.num 2))]⟩ } tokMath "1" "f" []
      = callAction { stEmpty with
          plugins := mapSet stEmpty.plugins "math"
            ⟨2, [("f", Entry.const (.num 2))]⟩ } tokMath "1" "f" [] :=
  c8_last_connect_wins stEmpty "math" ⟨1, [("f", Entry.const (.num 1))]⟩
    ⟨2, [("f", Entry.const (.num 2))]⟩ tokMath "1" "f" [] (by decide)

/-- C9: for every dispatched call action reaching an existing function,
the plugin function is invoked with exactly one argument — the entire
arguments array as a single value (`func.call(globalThis,
action.arguments)` passes the array itself, not its elements spread as
separate positional arguments) — and the reply is built from that
single-argument invocation's result. -/
theorem c9_single_argument (st : State) (tok : Token) (id fname : String)
    (args : List Value) (n vv : String) (rec : PluginRecord)
    (f : List Value → Except String Value)
    (hauth : authenticate st.key tok = ⟨n, vv, false⟩)
    (hplug : mapGet st.plugins n = some rec)
    (hfn : tableGet rec.functions fname = Entry.func f) :
    callAction st tok id fname args
      = match f [Value.arr args] with
        | .ok result => createHealthyResponse "call" id (.val (jsOr result .vnull))
        | .error e => createErrorResponse "call" id e := by
  simp [callAction, hauth, hplug, hfn, Entry.callJs, Entry.truthy]

/-- Witness for C9: a plugin function that reports how many JS arguments
it received answers 1 when called with the three-element arguments array
[1,2,3] — it received the array as one value, not three positional
arguments. -/
theorem c9_witness :
    callAction stCount tokMath "1" "count" [Value.num 1, Value.num 2, Value.num 3]
      = { type := "call", id := "1", error := none, message := .val (.num 1) } := by
  have h := c9_single_argument stCount tokMath "1" "count"
    [Value.num 1, Value.num 2, Value.num 3] "math" "0.0.1"
    ⟨0, [("count", Entry.func countFn)]⟩ countFn rfl rfl rfl
  simpa [countFn, jsOr, Value.truthy, createHealthyResponse] using h

/-- C10: for every retrieve action with a valid credential for a
registered plugin whose table maps the requested name to a falsy value
(0, false, "", null — anything with JS truthiness false), the dispatcher
replies with the error "constant '<name>' not found in plugin '<P>'"
instead of returning the stored constant: line 244 tests `!constant`,
which conflates falsy stored values with absent ones. -/
theorem c10_falsy_constant (st : State) (tok : Token) (id cname : String)
    (n vv : String) (rec : PluginRecord)
    (hauth : authenticate st.key tok = ⟨n, vv, false⟩)
    (hplug : mapGet st.plugins n = some rec)
    (hfalsy : (tableGet rec.functions cname).truthy = false) :
    retrieveAction st tok id cname
      = createErrorResponse "retrieve" id
          ("constant \x27" ++ cname ++ "\x27 not found in plugin \x27" ++ n ++ "\x27") := by
  simp [retrieveAction, hauth, hplug, hfalsy]

/-- Witness for C10: retrieving "zeroC", stored as the constant 0,
answers the constant-not-found error. -/
theorem c10_witness :
    retrieveAction stConst tokMath "1" "zeroC"
      = createErrorResponse "retrieve" "1"
          ("constant \x27" ++ "zeroC" ++ "\x27 not found in plugin \x27" ++ "math" ++ "\x27") :=
  c10_falsy_constant stConst tokMath "1" "zeroC" "math" "0.0.1"
    ⟨0, [("zeroC", Entry.const (.num 0))]⟩ rfl rfl rfl

end Conductor
